import Mathlib

/- Verification of the sparsh-extract gateway (src/app.py and
src/llama_extract_service.py): a shallow embedding of the PDF page-range
selector, the extraction-request coordinator and the HTTP request handler,
with theorems settling the specified properties. -/

namespace SparshExtract

/-- A document as the service sees it: either bytes that parse as a PDF,
modelled by the list of its page contents (each page an opaque content
identifier), or bytes that do not parse as a PDF. -/
inductive Doc where
  | pdf (pages : List Nat)
  | raw (bytes : List Nat)
deriving DecidableEq

/-- One field of an extraction schema: its name and whether it is optional,
as declared in the pydantic model. -/
structure SchemaField where
  fieldName : String
  optional : Bool
deriving DecidableEq

/-- A named extraction schema (the shape the remote service is asked to
populate). -/
structure ExtractionSchema where
  schemaName : String
  fields : List SchemaField
deriving DecidableEq

/-- The `ClinicalStudyProtocol` pydantic model built by
`get_clinical_study_protocol_schema` in src/llama_extract_service.py. -/
def get_clinical_study_protocol_schema : ExtractionSchema :=
  ⟨"ClinicalStudyProtocol",
   [⟨"protocol_title", false⟩, ⟨"sponsor", false⟩, ⟨"protocol_version", false⟩,
    ⟨"intervention_activities", false⟩, ⟨"post_intervention_activities", false⟩,
    ⟨"footnotes", true⟩, ⟨"abbreviations", true⟩]⟩

/-- `LlamaExtractService.get_schema`: takes no schema identifier and always
returns the clinical study protocol schema. -/
def get_schema : ExtractionSchema := get_clinical_study_protocol_schema

/-- The body of `extract_pages_20_to_40` (src/llama_extract_service.py,
lines 79-111) up to the choice of return path: `some slice` models the case
where the sliced document was written to `output_path` and `output_path`
returned; `none` models every fallback that returns `input_path` unchanged
(PyPDF2 missing, unparseable PDF, or `start_page >= total_pages`).
Constants from the source: `start_page = 19`, `end_page = min(39, total-1)`,
pages `range(start_page, end_page + 1)` copied in order. -/
def pagesSlice (pypdf2Available : Bool) (d : Doc) : Option (List Nat) :=
  if pypdf2Available = false then none
  else
    match d with
    | Doc.raw _ => none
    | Doc.pdf pages =>
      let totalPages := pages.length
      let startPage := 19
      let endPage := min 39 (totalPages - 1)
      if startPage ≥ totalPages then none
      else some ((pages.drop startPage).take (endPage - startPage + 1))

/-- `extract_pages_20_to_40` at the document level: the document found at the
path it returns (the written slice on success, the input document on every
fallback path). -/
def extract_pages_20_to_40 (pypdf2Available : Bool) (d : Doc) : Doc :=
  match pagesSlice pypdf2Available d with
  | some ps => Doc.pdf ps
  | none => d

/-- The hardcoded clinical protocol template (the large static dict built in
`extract_from_buffer` and repeated in the app handler). Its content is static
data never inspected by the logic, modelled as a single fixed value. -/
inductive Template where
  | clinicalProtocol
deriving DecidableEq

/-- `clinical_protocol_template` from src/llama_extract_service.py. -/
def clinical_protocol_template : Template := Template.clinicalProtocol

/-- The `response_data` dict assembled on success inside `extract_from_buffer`:
the static template, the remote result `result.data` (an opaque value) and the
hardcoded page-range string. -/
structure SuccessData where
  protocol_template : Template
  extracted_content : Nat
  pages_processed : String
deriving DecidableEq

/-- The success dict returned by `extract_from_buffer`: `success: True` plus
these fields. -/
structure SuccessDict where
  data : SuccessData
  filename : String
  schema_type : String
  agent_name : String
deriving DecidableEq

/-- Result of a Python call: a returned success dict, a returned failure dict
(`success: False` with an error message), or an exception propagating out of
the call. -/
inductive PyResult where
  | ok (d : SuccessDict)
  | err (msg : String)
  | raised (msg : String)
deriving DecidableEq

/-- Which of the two transient files created by `extract_from_buffer` exist on
the filesystem: the upload copy (suffix `.pdf`) and the pages file (suffix
`_pages_20_40.pdf`). -/
structure FS where
  tmp1 : Bool
  tmp2 : Bool
deriving DecidableEq

/-- The environment of one `extract_from_buffer` call: the process-wide
availability flags and, for each fallible external step, `none` when it
succeeds or `some msg` when it raises an exception with that message.
`extractData` is the opaque `result.data` the remote call would return and
`agentName` the freshly generated unique agent name. -/
structure ServiceEnv where
  available : Bool
  tmp1Create : Option String
  bufferRead : Option String
  tmp2Create : Option String
  pypdf2 : Bool
  createAgent : Option String
  extractCall : Option String
  extractData : Nat
  agentName : String
  unlink1 : Option String
  unlink2 : Option String
deriving DecidableEq

/-- `is_available`: whether `self.extractor` is not `None`. -/
def is_available (env : ServiceEnv) : Bool := env.available

/-- `LlamaExtractService.__init__`: the extractor is initialized only when the
`LLAMA_CLOUD_API_KEY` credential is set, the `llama_cloud_services` package is
importable, and the client constructor does not raise. -/
def service_available (apiKey : Option String) (packageAvailable : Bool)
    (initOk : Bool) : Bool :=
  apiKey.isSome && packageAvailable && initOk

/-- The `file_buffer` argument of `extract_from_buffer`: its Python
truthiness (an `io.BytesIO` object is always truthy; `None` is falsy), how
its bytes parse as a document, and its byte length. -/
structure Buffer where
  truthy : Bool
  doc : Doc
  size : Nat
deriving DecidableEq

/-- The outcome of one `extract_from_buffer` call: the Python-level result,
the transient files still on the filesystem after the call, and the document
submitted to the remote `agent.extract` call, when that call was reached. -/
structure ServiceOutcome where
  result : PyResult
  fs : FS
  submitted : Option Doc
deriving DecidableEq

/-- The service-unavailable failure message returned by `extract_from_buffer`
(line 122 of src/llama_extract_service.py); its second sentence is the
remediation hint. -/
def service_unavailable_error : String :=
  "LlamaExtract service not available. Check API key and dependencies."

/-- The `finally` block of `extract_from_buffer` (lines 420-428).
`tmp1PathSet` is whether `temp_file_path` was assigned a path (it is
initialized to `None` before the `try`); `pagesBound` is whether
`pages_file_path` was assigned at all. When it was not, building the list
`[temp_file_path, pages_file_path]` raises `UnboundLocalError`, which
escapes the `finally`, replaces the pending result and skips all cleanup.
Otherwise each existing file is unlinked, with a failing unlink logged and
swallowed. -/
def cleanupFinally (env : ServiceEnv) (tmp1PathSet : Bool) (pagesBound : Bool)
    (fs : FS) (res : PyResult) : PyResult × FS :=
  if pagesBound = false then
    (PyResult.raised "UnboundLocalError: pages_file_path referenced before assignment", fs)
  else
    let fs1 := if tmp1PathSet && fs.tmp1 then
        (if env.unlink1.isNone then FS.mk false fs.tmp2 else fs) else fs
    let fs2 := if fs1.tmp2 then
        (if env.unlink2.isNone then FS.mk fs1.tmp1 false else fs1) else fs1
    (res, fs2)

/-- The tail of the `try` body from the schema lookup onwards (lines 157-412):
`get_schema` cannot raise (it only builds static pydantic classes), then
`create_agent` and `agent.extract` run on the chosen file, and on success the
response dict is assembled. Every exception is converted by the `except`
clause into an `Extraction failed: ...` dict, and the `finally` block runs
with both temp files created and both path variables bound. -/
def submitPhase (env : ServiceEnv) (filename : String) (finalDoc : Doc) :
    ServiceOutcome :=
  let _schema := get_schema
  match env.createAgent with
  | some e =>
    let p := cleanupFinally env true true (FS.mk true true)
      (PyResult.err ("Extraction failed: " ++ e))
    ⟨p.1, p.2, none⟩
  | none =>
    match env.extractCall with
    | some e =>
      let p := cleanupFinally env true true (FS.mk true true)
        (PyResult.err ("Extraction failed: " ++ e))
      ⟨p.1, p.2, some finalDoc⟩
    | none =>
      let d : SuccessDict :=
        ⟨⟨clinical_protocol_template, env.extractData, "20-40"⟩,
         filename, "clinical_study_protocol", env.agentName⟩
      let p := cleanupFinally env true true (FS.mk true true) (PyResult.ok d)
      ⟨p.1, p.2, some finalDoc⟩

/-- `extract_from_buffer` (src/llama_extract_service.py, lines 119-428).
The availability and truthiness checks return before the `try`, so no
cleanup runs for them. Inside the `try`: the upload is copied to a first
temp file (`temp_file_path` is assigned only after the buffer is read), a
second temp file is created for the page slice (`pages_file_path` is
assigned inside that `with`), `extract_pages_20_to_40` picks the file to
submit, an empty final file is rejected, and the agent is created and run.
The `except` clause converts any exception raised so far into an error dict;
the `finally` block then runs as modelled by `cleanupFinally`. -/
def extract_from_buffer (env : ServiceEnv) (buffer : Buffer)
    (filename : String) : ServiceOutcome :=
  if is_available env = false then
    ⟨PyResult.err service_unavailable_error, FS.mk false false, none⟩
  else if buffer.truthy = false then
    ⟨PyResult.err "No file buffer provided", FS.mk false false, none⟩
  else
    match env.tmp1Create with
    | some e =>
      let p := cleanupFinally env false false (FS.mk false false)
        (PyResult.err ("Extraction failed: " ++ e))
      ⟨p.1, p.2, none⟩
    | none =>
      match env.bufferRead with
      | some e =>
        let p := cleanupFinally env false false (FS.mk true false)
          (PyResult.err ("Extraction failed: " ++ e))
        ⟨p.1, p.2, none⟩
      | none =>
        match env.tmp2Create with
        | some e =>
          let p := cleanupFinally env true false (FS.mk true false)
            (PyResult.err ("Extraction failed: " ++ e))
          ⟨p.1, p.2, none⟩
        | none =>
          match pagesSlice env.pypdf2 buffer.doc with
          | some ps => submitPhase env filename (Doc.pdf ps)
          | none =>
            if buffer.size == 0 then
              let p := cleanupFinally env true true (FS.mk true true)
                (PyResult.err "Failed to create temporary file or extract pages 20-40")
              ⟨p.1, p.2, none⟩
            else submitPhase env filename buffer.doc

/-- `filename.lower()` on the characters of the declared filename. -/
def lowerName (s : String) : List Char := s.data.map Char.toLower

/-- `filename.lower().endswith(".pdf")`. -/
def hasPdfExt (s : String) : Bool := List.isSuffixOf ".pdf".data (lowerName s)

/-- An uploaded file as the Flask handler sees it: declared filename, total
byte size (what `seek(0, 2); tell()` reports), and how its bytes parse as a
document. -/
structure UploadedFile where
  filename : String
  size : Nat
  doc : Doc
deriving DecidableEq

/-- An inbound multipart request: the optional `file` part, and an optional
schema-identifier form field, which a client may send but the handler never
reads. -/
structure HttpRequest where
  file : Option UploadedFile
  schemaId : Option String
deriving DecidableEq

/-- The success response body assembled by the handler (src/app.py, lines
62-283): the static template dict repeated verbatim, the service result dict
under the distinct `llamaExtractedData` key, and the `extractionMetadata`
dict. -/
structure AppPayload where
  template : Template
  llamaExtractedData : SuccessData
  metaFilename : String
  metaSchemaType : String
  metaAgentName : String
  metaMessage : String
deriving DecidableEq

/-- A JSON response body: a bare error object, the 503 error object with its
fallback message, or the success payload. -/
inductive RespBody where
  | errorBody (error : String)
  | errorFallback (error fallback : String)
  | payload (p : AppPayload)
deriving DecidableEq

/-- An HTTP response: status code and JSON body. -/
structure HttpResponse where
  status : Nat
  body : RespBody
deriving DecidableEq

/-- The 503 error message of the handler (src/app.py, line 44). -/
def app_unavailable_error : String :=
  "LlamaExtract service not available. Please check LLAMA_CLOUD_API_KEY and dependencies."

/-- The 503 fallback message of the handler (src/app.py, line 45). -/
def app_fallback_message : String :=
  "You can install dependencies with: pip install llama-extract"

/-- The `extractionMetadata.message` value (src/app.py, line 280). -/
def app_success_message : String :=
  "Clinical study protocol extraction completed using LlamaExtract"

/-- The success payload built from the service result dict. -/
def mkAppPayload (d : SuccessDict) : AppPayload :=
  ⟨Template.clinicalProtocol, d.data, d.filename, d.schema_type, d.agent_name,
   app_success_message⟩

/-- The `/extract` Flask handler (src/app.py, lines 13-290): validation of
the upload (presence, non-empty filename — a Werkzeug FileStorage is falsy
exactly when its filename is empty — `.pdf` extension, 16 MB limit), the
availability gate, the service call on an `io.BytesIO` copy of the bytes
(always truthy), and the mapping of the service outcome to a JSON response;
an exception escaping the service call is caught by the outermost handler
and reported as a 500 `Server error`. -/
def appExtract (env : ServiceEnv) (req : HttpRequest) : HttpResponse :=
  match req.file with
  | none => ⟨400, RespBody.errorBody "No file provided"⟩
  | some f =>
    if f.filename = "" then ⟨400, RespBody.errorBody "No file uploaded"⟩
    else if hasPdfExt f.filename = false then
      ⟨400, RespBody.errorBody "File must be a PDF"⟩
    else if f.size > 16 * 1024 * 1024 then
      ⟨400, RespBody.errorBody "File too large. Maximum 16MB allowed"⟩
    else if is_available env = false then
      ⟨503, RespBody.errorFallback app_unavailable_error app_fallback_message⟩
    else
      match (extract_from_buffer env (Buffer.mk true f.doc f.size) f.filename).result with
      | PyResult.ok d => ⟨200, RespBody.payload (mkAppPayload d)⟩
      | PyResult.err m => ⟨500, RespBody.errorBody m⟩
      | PyResult.raised e => ⟨500, RespBody.errorBody ("Server error: " ++ e)⟩

/-- Slicing a PDF with at least 20 pages succeeds, taking pages
`start_page .. min(39, total-1)` (0-indexed). -/
theorem pagesSlice_of_twenty_le (pages : List Nat) (h : 20 ≤ pages.length) :
    pagesSlice true (Doc.pdf pages) =
      some ((pages.drop 19).take (min 39 (pages.length - 1) - 19 + 1)) := by
  have hng : ¬(19 ≥ pages.length) := by omega
  unfold pagesSlice
  simp [hng]

/-- C2: for a parseable PDF with at least 40 pages, `extract_pages_20_to_40`
returns a 21-page document whose page N (1-based) has the content of source
page 20 + N - 1, in original order; when the page count lies between 20 and
40, the end of the range is clamped to the last available page, so the output
holds pages 20 .. total in order. -/
theorem select_range_correct (pages : List Nat) :
    (40 ≤ pages.length →
      ∃ out, extract_pages_20_to_40 true (Doc.pdf pages) = Doc.pdf out ∧
        out.length = 21 ∧ ∀ i, i < 21 → out[i]? = pages[19 + i]?) ∧
    (20 ≤ pages.length → pages.length ≤ 40 →
      ∃ out, extract_pages_20_to_40 true (Doc.pdf pages) = Doc.pdf out ∧
        out.length = pages.length - 19 ∧
        ∀ i, i < pages.length - 19 → out[i]? = pages[19 + i]?) := by
  constructor
  · intro h40
    refine ⟨(pages.drop 19).take 21, ?_, ?_, ?_⟩
    · unfold extract_pages_20_to_40
      rw [pagesSlice_of_twenty_le pages (by omega)]
      have hmin : min 39 (pages.length - 1) = 39 := by omega
      rw [hmin]
    · simp only [List.length_take, List.length_drop]
      omega
    · intro i hi
      rw [List.getElem?_take, if_pos hi, List.getElem?_drop]
  · intro h20 h40
    refine ⟨(pages.drop 19).take (pages.length - 19), ?_, ?_, ?_⟩
    · unfold extract_pages_20_to_40
      rw [pagesSlice_of_twenty_le pages h20]
      have hmin : min 39 (pages.length - 1) - 19 + 1 = pages.length - 19 := by omega
      rw [hmin]
    · simp only [List.length_take, List.length_drop]
      omega
    · intro i hi
      rw [List.getElem?_take, if_pos hi, List.getElem?_drop]

/-- Witness for C2 on a concrete 40-page document. -/
theorem select_range_correct_witness :
    ∃ out, extract_pages_20_to_40 true (Doc.pdf (List.range 40)) = Doc.pdf out ∧
      out.length = 21 ∧ ∀ i, i < 21 → out[i]? = (List.range 40)[19 + i]? :=
  (select_range_correct (List.range 40)).1 (by decide)

/-- C6: for a parseable PDF with fewer pages than the range start (20), the
selector returns the original document unchanged. -/
theorem select_short_unchanged (pypdf2Available : Bool) (pages : List Nat)
    (h : pages.length < 20) :
    extract_pages_20_to_40 pypdf2Available (Doc.pdf pages) = Doc.pdf pages := by
  cases pypdf2Available
  · rfl
  · have hge : 19 ≥ pages.length := by omega
    unfold extract_pages_20_to_40 pagesSlice
    simp [hge]

/-- Witness for C6 on a concrete 5-page document. -/
theorem select_short_unchanged_witness :
    extract_pages_20_to_40 true (Doc.pdf [0, 1, 2, 3, 4]) = Doc.pdf [0, 1, 2, 3, 4] :=
  select_short_unchanged true [0, 1, 2, 3, 4] (by decide)

/-- C7: the selector never raises: when PyPDF2 is unavailable, or the input
does not parse as a PDF, it returns the original document unchanged. -/
theorem select_silent_fallback :
    (∀ d, extract_pages_20_to_40 false d = d) ∧
    (∀ (pypdf2Available : Bool) (bytes : List Nat),
      extract_pages_20_to_40 pypdf2Available (Doc.raw bytes) = Doc.raw bytes) := by
  constructor
  · intro d; rfl
  · intro b bs; cases b <;> rfl


/-- C5: when the remote extraction capability is not configured (in
particular when the credential is unset or client initialization failed, so
`service_available` is false and the extractor is `None`), every call to
`extract_from_buffer` returns the `ServiceUnavailable` failure dict carrying
the remediation hint, touches no file and submits nothing; and the handler
answers 503 before calling the service. -/
theorem unavailable_returns_failure_without_files (env : ServiceEnv)
    (buffer : Buffer) (filename : String) (f : UploadedFile)
    (sid : Option String) (h : is_available env = false) :
    extract_from_buffer env buffer filename =
      ⟨PyResult.err service_unavailable_error, FS.mk false false, none⟩ ∧
    (∀ (apiKey : Option String) (packageAvailable initOk : Bool),
      apiKey = none → service_available apiKey packageAvailable initOk = false) ∧
    (f.filename ≠ "" → hasPdfExt f.filename = true →
      f.size ≤ 16 * 1024 * 1024 →
      appExtract env ⟨some f, sid⟩ =
        ⟨503, RespBody.errorFallback app_unavailable_error app_fallback_message⟩) := by
  refine ⟨?_, ?_, ?_⟩
  · unfold extract_from_buffer
    rw [h]
    simp
  · intro apiKey p i hk
    subst hk
    rfl
  · intro h1 h2 h3
    have h3n : ¬(f.size > 16 * 1024 * 1024) := by omega
    simp [appExtract, h1, h2, h3n, h]

/-- Witness for C5: a concrete unavailable environment. -/
theorem unavailable_returns_failure_without_files_witness :
    extract_from_buffer
        ⟨false, none, none, none, true, none, none, 0, "agent-x", none, none⟩
        (Buffer.mk true (Doc.pdf [0, 1, 2]) 128) "a.pdf" =
      ⟨PyResult.err service_unavailable_error, FS.mk false false, none⟩ :=
  (unavailable_returns_failure_without_files
    ⟨false, none, none, none, true, none, none, 0, "agent-x", none, none⟩
    (Buffer.mk true (Doc.pdf [0, 1, 2]) 128) "a.pdf"
    ⟨"a.pdf", 128, Doc.pdf [0, 1, 2]⟩ none rfl).1

/-- C3: on success the coordinator returns, unchanged, the structured value
`result.data` produced by the remote call, alongside the agent name and the
effective schema identifier `clinical_study_protocol`. -/
theorem success_result_unchanged (env : ServiceEnv) (buffer : Buffer)
    (filename : String)
    (h1 : env.available = true) (h2 : buffer.truthy = true)
    (h3 : env.tmp1Create = none) (h4 : env.bufferRead = none)
    (h5 : env.tmp2Create = none) (h6 : env.createAgent = none)
    (h7 : env.extractCall = none) (h8 : buffer.size ≠ 0) :
    (extract_from_buffer env buffer filename).result =
      PyResult.ok ⟨⟨clinical_protocol_template, env.extractData, "20-40"⟩,
        filename, "clinical_study_protocol", env.agentName⟩ := by
  have h8b : (buffer.size == 0) = false := by simp [h8]
  cases hs : pagesSlice env.pypdf2 buffer.doc with
  | some ps =>
    simp [extract_from_buffer, is_available, submitPhase, cleanupFinally,
      h1, h2, h3, h4, h5, h6, h7, hs]
  | none =>
    simp [extract_from_buffer, is_available, submitPhase, cleanupFinally,
      h1, h2, h3, h4, h5, h6, h7, h8b, hs]

/-- A concrete fully-successful environment. -/
def okServiceEnv : ServiceEnv :=
  ⟨true, none, none, none, true, none, none, 7,
   "clinical-protocol-extractor-0a1b2c3d", none, none⟩

/-- Witness for C3 on a concrete successful call. -/
theorem success_result_unchanged_witness :
    (extract_from_buffer okServiceEnv
        (Buffer.mk true (Doc.pdf (List.range 50)) 4096) "protocol.pdf").result =
      PyResult.ok ⟨⟨clinical_protocol_template, 7, "20-40"⟩, "protocol.pdf",
        "clinical_study_protocol", "clinical-protocol-extractor-0a1b2c3d"⟩ :=
  success_result_unchanged okServiceEnv
    (Buffer.mk true (Doc.pdf (List.range 50)) 4096) "protocol.pdf"
    rfl rfl rfl rfl rfl rfl rfl (by decide)

/-- The environment of the C1 failing input: service configured, first temp
file created, then the buffer read raises (as a closed `io.BytesIO` does). -/
def closedBufferEnv : ServiceEnv :=
  ⟨true, none, some "I/O operation on closed file", none, true, none, none, 0,
   "clinical-protocol-extractor-deadbeef", none, none⟩

/-- C1 (code bug): when reading the buffer raises after the first temp file
was created, `pages_file_path` was never assigned, so the `finally` block
raises `UnboundLocalError` while building `[temp_file_path, pages_file_path]`;
that exception escapes the call, masking the handled-failure dict the
`except` clause had produced, and the first transient file is still on the
filesystem after the call returns. -/
theorem cleanup_leaks_and_masks_on_buffer_read_failure :
    extract_from_buffer closedBufferEnv
        (Buffer.mk true (Doc.pdf (List.range 30)) 1000) "test.pdf" =
      ⟨PyResult.raised
          "UnboundLocalError: pages_file_path referenced before assignment",
       FS.mk true false, none⟩ := rfl

/-- Every success dict `extract_from_buffer` can return has the same shape:
the static template, the remote data, the constant `"20-40"` range string,
the filename, the constant schema identifier and the agent name. -/
theorem result_ok_shape (env : ServiceEnv) (buffer : Buffer)
    (filename : String) (d : SuccessDict)
    (h : (extract_from_buffer env buffer filename).result = PyResult.ok d) :
    d = ⟨⟨clinical_protocol_template, env.extractData, "20-40"⟩, filename,
      "clinical_study_protocol", env.agentName⟩ := by
  unfold extract_from_buffer is_available submitPhase cleanupFinally at h
  repeat' split at h
  all_goals simp_all

/-- C4 (counterexample): with a 10-page upload the selector falls back, the
remote call runs on the full 10-page document, yet the success payload
reports the page range string "20-40": the reported range does not reflect
the pages actually processed. -/
theorem pages_processed_misreported :
    (extract_from_buffer okServiceEnv
        (Buffer.mk true (Doc.pdf (List.range 10)) 2048) "ten.pdf").submitted =
      some (Doc.pdf (List.range 10)) ∧
    (extract_from_buffer okServiceEnv
        (Buffer.mk true (Doc.pdf (List.range 10)) 2048) "ten.pdf").result =
      PyResult.ok ⟨⟨clinical_protocol_template, 7, "20-40"⟩, "ten.pdf",
        "clinical_study_protocol", "clinical-protocol-extractor-0a1b2c3d"⟩ :=
  ⟨rfl, rfl⟩

/-- C4 (amended): every success payload reports the constant page range
string "20-40" regardless of what was processed; when the selector falls
back, the remote call does proceed on the full original document, but the
reported range stays "20-40". -/
theorem pages_processed_constant (env : ServiceEnv) (buffer : Buffer)
    (filename : String) :
    (∀ d, (extract_from_buffer env buffer filename).result = PyResult.ok d →
      d.data.pages_processed = "20-40") ∧
    (env.available = true → buffer.truthy = true → env.tmp1Create = none →
      env.bufferRead = none → env.tmp2Create = none → env.createAgent = none →
      buffer.size ≠ 0 → pagesSlice env.pypdf2 buffer.doc = none →
      (extract_from_buffer env buffer filename).submitted = some buffer.doc) := by
  constructor
  · intro d h
    rw [result_ok_shape env buffer filename d h]
  · intro h1 h2 h3 h4 h5 h6 h8 hs
    have h8b : (buffer.size == 0) = false := by simp [h8]
    cases he : env.extractCall with
    | some e =>
      simp [extract_from_buffer, is_available, submitPhase, cleanupFinally,
        h1, h2, h3, h4, h5, h6, h8b, hs, he]
    | none =>
      simp [extract_from_buffer, is_available, submitPhase, cleanupFinally,
        h1, h2, h3, h4, h5, h6, h8b, hs, he]

/-- Witness for the amended C4 on the concrete 10-page fallback call. -/
theorem pages_processed_constant_witness :
    (extract_from_buffer okServiceEnv
        (Buffer.mk true (Doc.pdf (List.range 10)) 2048) "ten.pdf").submitted =
      some (Doc.pdf (List.range 10)) :=
  (pages_processed_constant okServiceEnv
      (Buffer.mk true (Doc.pdf (List.range 10)) 2048) "ten.pdf").2
    rfl rfl rfl rfl rfl rfl (by decide) (by decide)

/-- C8: schema lookup never fails and never depends on a supplied schema
identifier: `get_schema` takes no identifier and returns the comprehensive
clinical-study-protocol schema, the handler behaves identically whatever
schema-identifier field a request carries (including none), and every
success dict reports the default identifier `clinical_study_protocol`. -/
theorem schema_lookup_never_fails (env : ServiceEnv) (buffer : Buffer)
    (filename : String) (file : Option UploadedFile) (sid1 sid2 : Option String) :
    get_schema = get_clinical_study_protocol_schema ∧
    appExtract env ⟨file, sid1⟩ = appExtract env ⟨file, sid2⟩ ∧
    (∀ d, (extract_from_buffer env buffer filename).result = PyResult.ok d →
      d.schema_type = "clinical_study_protocol") := by
  refine ⟨rfl, rfl, ?_⟩
  intro d h
  rw [result_ok_shape env buffer filename d h]

/-- Witness for C8 on a concrete successful call. -/
theorem schema_lookup_never_fails_witness :
    (⟨⟨clinical_protocol_template, 7, "20-40"⟩, "protocol.pdf",
      "clinical_study_protocol",
      "clinical-protocol-extractor-0a1b2c3d"⟩ : SuccessDict).schema_type =
      "clinical_study_protocol" :=
  (schema_lookup_never_fails okServiceEnv
      (Buffer.mk true (Doc.pdf (List.range 50)) 4096) "protocol.pdf"
      none none none).2.2
    ⟨⟨clinical_protocol_template, 7, "20-40"⟩, "protocol.pdf",
      "clinical_study_protocol", "clinical-protocol-extractor-0a1b2c3d"⟩
    (by rfl)

/-- C9: the response mapping of the handler: each validation failure gives
400 with a bare error body; unavailability gives 503; a failed extraction
result gives 500 carrying the failure message and no template or extracted
data; an exception escaping the service gives 500; success gives 200 with
the response payload. -/
theorem http_status_mapping (env : ServiceEnv) (f : UploadedFile)
    (sid : Option String) :
    (appExtract env ⟨none, sid⟩ = ⟨400, RespBody.errorBody "No file provided"⟩) ∧
    (f.filename = "" →
      appExtract env ⟨some f, sid⟩ = ⟨400, RespBody.errorBody "No file uploaded"⟩) ∧
    (f.filename ≠ "" → hasPdfExt f.filename = false →
      appExtract env ⟨some f, sid⟩ = ⟨400, RespBody.errorBody "File must be a PDF"⟩) ∧
    (f.filename ≠ "" → hasPdfExt f.filename = true →
      f.size > 16 * 1024 * 1024 →
      appExtract env ⟨some f, sid⟩ =
        ⟨400, RespBody.errorBody "File too large. Maximum 16MB allowed"⟩) ∧
    (f.filename ≠ "" → hasPdfExt f.filename = true →
      f.size ≤ 16 * 1024 * 1024 → is_available env = false →
      appExtract env ⟨some f, sid⟩ =
        ⟨503, RespBody.errorFallback app_unavailable_error app_fallback_message⟩) ∧
    (∀ m, f.filename ≠ "" → hasPdfExt f.filename = true →
      f.size ≤ 16 * 1024 * 1024 → is_available env = true →
      (extract_from_buffer env (Buffer.mk true f.doc f.size) f.filename).result =
        PyResult.err m →
      appExtract env ⟨some f, sid⟩ = ⟨500, RespBody.errorBody m⟩) ∧
    (∀ e, f.filename ≠ "" → hasPdfExt f.filename = true →
      f.size ≤ 16 * 1024 * 1024 → is_available env = true →
      (extract_from_buffer env (Buffer.mk true f.doc f.size) f.filename).result =
        PyResult.raised e →
      appExtract env ⟨some f, sid⟩ =
        ⟨500, RespBody.errorBody ("Server error: " ++ e)⟩) ∧
    (∀ d, f.filename ≠ "" → hasPdfExt f.filename = true →
      f.size ≤ 16 * 1024 * 1024 → is_available env = true →
      (extract_from_buffer env (Buffer.mk true f.doc f.size) f.filename).result =
        PyResult.ok d →
      appExtract env ⟨some f, sid⟩ = ⟨200, RespBody.payload (mkAppPayload d)⟩) := by
  refine ⟨rfl, ?_, ?_, ?_, ?_, ?_, ?_, ?_⟩
  · intro h1
    simp [appExtract, h1]
  · intro h1 h2
    simp [appExtract, h1, h2]
  · intro h1 h2 h3
    simp [appExtract, h1, h2, h3]
  · intro h1 h2 h3 h4
    have h3n : ¬(f.size > 16 * 1024 * 1024) := by omega
    simp [appExtract, h1, h2, h3n, h4]
  · intro m h1 h2 h3 h4 h5
    have h3n : ¬(f.size > 16 * 1024 * 1024) := by omega
    simp [appExtract, h1, h2, h3n, h4, h5]
  · intro e h1 h2 h3 h4 h5
    have h3n : ¬(f.size > 16 * 1024 * 1024) := by omega
    simp [appExtract, h1, h2, h3n, h4, h5]
  · intro d h1 h2 h3 h4 h5
    have h3n : ¬(f.size > 16 * 1024 * 1024) := by omega
    simp [appExtract, h1, h2, h3n, h4, h5]

/-- Witness for C9 on concrete requests: a missing file part and a `.txt`
upload. -/
theorem http_status_mapping_witness :
    appExtract okServiceEnv ⟨none, none⟩ =
      ⟨400, RespBody.errorBody "No file provided"⟩ ∧
    appExtract okServiceEnv ⟨some ⟨"notes.txt", 10, Doc.raw [1]⟩, none⟩ =
      ⟨400, RespBody.errorBody "File must be a PDF"⟩ :=
  ⟨(http_status_mapping okServiceEnv ⟨"notes.txt", 10, Doc.raw [1]⟩ none).1,
   (http_status_mapping okServiceEnv ⟨"notes.txt", 10, Doc.raw [1]⟩ none).2.2.1
     (by decide) (by decide)⟩

/-- C10: the upload size limit is inclusive at the public interface: a file
of exactly 16 MiB is never rejected as oversized, and a file strictly larger
than 16 MiB is rejected as oversized with a 400. -/
theorem upload_limit_inclusive (env : ServiceEnv) (f : UploadedFile)
    (sid : Option String) (h1 : f.filename ≠ "")
    (h2 : hasPdfExt f.filename = true) :
    (f.size ≤ 16 * 1024 * 1024 →
      appExtract env ⟨some f, sid⟩ ≠
        ⟨400, RespBody.errorBody "File too large. Maximum 16MB allowed"⟩) ∧
    (f.size > 16 * 1024 * 1024 →
      appExtract env ⟨some f, sid⟩ =
        ⟨400, RespBody.errorBody "File too large. Maximum 16MB allowed"⟩) := by
  constructor
  · intro hle
    have hng : ¬(f.size > 16 * 1024 * 1024) := by omega
    cases hav : is_available env with
    | false => simp [appExtract, h1, h2, hng, hav]
    | true =>
      cases hres :
          (extract_from_buffer env (Buffer.mk true f.doc f.size) f.filename).result with
      | ok d => simp [appExtract, h1, h2, hng, hav, hres]
      | err m => simp [appExtract, h1, h2, hng, hav, hres]
      | raised e => simp [appExtract, h1, h2, hng, hav, hres]
  · intro hgt
    simp [appExtract, h1, h2, hgt]

/-- Witness for C10: a 16 MiB upload passes the size check; a 16 MiB + 1 byte
upload is rejected as oversized. -/
theorem upload_limit_inclusive_witness :
    appExtract okServiceEnv
        ⟨some ⟨"big.pdf", 16 * 1024 * 1024, Doc.pdf (List.range 50)⟩, none⟩ ≠
      ⟨400, RespBody.errorBody "File too large. Maximum 16MB allowed"⟩ ∧
    appExtract okServiceEnv
        ⟨some ⟨"big.pdf", 16 * 1024 * 1024 + 1, Doc.pdf (List.range 50)⟩, none⟩ =
      ⟨400, RespBody.errorBody "File too large. Maximum 16MB allowed"⟩ :=
  ⟨(upload_limit_inclusive okServiceEnv
      ⟨"big.pdf", 16 * 1024 * 1024, Doc.pdf (List.range 50)⟩ none
      (by decide) (by decide)).1 (by decide),
   (upload_limit_inclusive okServiceEnv
      ⟨"big.pdf", 16 * 1024 * 1024 + 1, Doc.pdf (List.range 50)⟩ none
      (by decide) (by decide)).2 (by decide)⟩

end SparshExtract
